import Mathlib

/-!
Verification of the SheSafe sentinel core.

Shallow embedding of `src/services/geminiService.ts` (the `SafetySentinel`
transport session, the PCM encoder, the volume meter) and of `src/App.tsx`
(the arming/alert controller: `handleError`, `captureEvidence`,
`triggerAlert`, `toggleArm`).

JavaScript numbers on the audio path are modelled as `Option ℚ`, with
`none` standing for NaN; machine conversion to `Int16Array` slots is
modelled explicitly (truncation toward zero, reduction mod 2^16,
reinterpretation as signed).  Async platform calls (getUserMedia,
geolocation, drawing to a canvas, the wake lock) are modelled by explicit
outcome parameters; the effects a function schedules (transport sends,
callback invocations) are collected into explicit action traces.
-/

namespace SheSafe

/-- A JavaScript number as seen by the audio path: NaN (`none`) or a real
value, modelled as a rational. -/
abbrev JSNum := Option ℚ

/-- `Math.min(a, x)`: NaN propagates through. -/
def jsMin (a : ℚ) (x : JSNum) : JSNum := x.map (fun q => min a q)

/-- `Math.max(a, x)`: NaN propagates through. -/
def jsMax (a : ℚ) (x : JSNum) : JSNum := x.map (fun q => max a q)

/-- NaN-aware multiplication by a constant. -/
def jsMul (x : JSNum) (c : ℚ) : JSNum := x.map (fun q => q * c)

/-- NaN-aware `<`: every comparison against NaN is false. -/
def jsLt (x : JSNum) (c : ℚ) : Bool :=
  match x with
  | none => false
  | some q => decide (q < c)

/-- Truncation toward zero, as the JS number-to-integer conversion does. -/
def truncToward0 (q : ℚ) : ℤ := if 0 ≤ q then ⌊q⌋ else ⌈q⌉

/-- `ToInt16`, the conversion applied when a JS number is stored into an
`Int16Array` slot: NaN becomes 0; otherwise truncate toward zero, reduce
mod 2^16 and reinterpret as a signed 16-bit value. -/
def toInt16 (x : JSNum) : ℤ :=
  match x with
  | none => 0
  | some q =>
    if truncToward0 q % 65536 < 32768 then truncToward0 q % 65536
    else truncToward0 q % 65536 - 65536

/-- One iteration of the `floatTo16BitPCM` loop from
`src/services/geminiService.ts`:
`s = Math.max(-1, Math.min(1, input[i])); output[i] = s < 0 ? s * 0x8000 : s * 0x7FFF`. -/
def pcmSample (x : JSNum) : ℤ :=
  toInt16 (if jsLt (jsMax (-1) (jsMin 1 x)) 0
           then jsMul (jsMax (-1) (jsMin 1 x)) 32768
           else jsMul (jsMax (-1) (jsMin 1 x)) 32767)

/-- `floatTo16BitPCM` from `src/services/geminiService.ts`: the output
`Int16Array` has one slot per input sample, each filled by the loop body. -/
def floatTo16BitPCM (input : List JSNum) : List ℤ := input.map pcmSample

/-- The reference value named by the spec: the input clamped into `[-1, 1]`
and scaled asymmetrically, by 32768 when negative and by 32767 otherwise. -/
def clampScale (q : ℚ) : ℚ :=
  if max (-1) (min 1 q) < 0 then max (-1) (min 1 q) * 32768
  else max (-1) (min 1 q) * 32767

lemma clamp_mem (q : ℚ) : -1 ≤ max (-1) (min 1 q) ∧ max (-1) (min 1 q) ≤ 1 :=
  ⟨le_max_left _ _, max_le (by norm_num) (min_le_left _ _)⟩

lemma clampScale_lower (q : ℚ) : -32768 ≤ clampScale q := by
  unfold clampScale
  have h1 := (clamp_mem q).1
  by_cases h : max (-1) (min 1 q) < 0
  · rw [if_pos h]; nlinarith
  · rw [if_neg h]; nlinarith [le_of_not_lt h]

lemma clampScale_upper (q : ℚ) : clampScale q ≤ 32767 := by
  unfold clampScale
  have h2 := (clamp_mem q).2
  by_cases h : max (-1) (min 1 q) < 0
  · rw [if_pos h]; nlinarith
  · rw [if_neg h]; nlinarith [le_of_not_lt h]

lemma truncToward0_close (q : ℚ) : |(truncToward0 q : ℚ) - q| ≤ 1 := by
  unfold truncToward0
  split
  · have h1 : (⌊q⌋ : ℚ) ≤ q := Int.floor_le q
    have h2 : q - 1 < (⌊q⌋ : ℚ) := Int.sub_one_lt_floor q
    rw [abs_le]
    constructor <;> linarith
  · have h1 : q ≤ (⌈q⌉ : ℚ) := Int.le_ceil q
    have h2 : (⌈q⌉ : ℚ) < q + 1 := Int.ceil_lt_add_one q
    rw [abs_le]
    constructor <;> linarith

lemma truncToward0_bounds {q : ℚ} (h1 : -32768 ≤ q) (h2 : q ≤ 32767) :
    -32768 ≤ truncToward0 q ∧ truncToward0 q ≤ 32767 := by
  unfold truncToward0
  by_cases h : 0 ≤ q
  · rw [if_pos h]
    constructor
    · have : (0 : ℤ) ≤ ⌊q⌋ := Int.floor_nonneg.mpr h
      omega
    · have : ⌊q⌋ ≤ ⌊(32767 : ℚ)⌋ := Int.floor_le_floor h2
      simpa using this
  · rw [if_neg h]
    constructor
    · have : ⌈(-32768 : ℚ)⌉ ≤ ⌈q⌉ := Int.ceil_le_ceil h1
      simpa using this
    · have h0 : ⌈q⌉ ≤ ⌈(0 : ℚ)⌉ := Int.ceil_le_ceil (le_of_not_le h)
      have : ⌈(0 : ℚ)⌉ = (0 : ℤ) := by norm_num
      omega

lemma int16_wrap {n : ℤ} (h1 : -32768 ≤ n) (h2 : n ≤ 32767) :
    (if n % 65536 < 32768 then n % 65536 else n % 65536 - 65536) = n := by
  omega

lemma toInt16_some_inrange {q : ℚ} (h1 : -32768 ≤ q) (h2 : q ≤ 32767) :
    toInt16 (some q) = truncToward0 q := by
  have hb := truncToward0_bounds h1 h2
  simp only [toInt16]
  exact int16_wrap hb.1 hb.2

/-- On a non-NaN sample, the encoder computes exactly the truncation toward
zero of the spec's clamped, asymmetrically scaled value: the mod-2^16 wrap
in the `Int16Array` store is the identity on the in-range result. -/
lemma pcmSample_some (q : ℚ) : pcmSample (some q) = truncToward0 (clampScale q) := by
  have hlo := clampScale_lower q
  have hhi := clampScale_upper q
  by_cases h : max (-1) (min 1 q) < 0
  · have hstep : pcmSample (some q) = toInt16 (some (max (-1) (min 1 q) * 32768)) := by
      simp [pcmSample, jsMax, jsMin, jsLt, jsMul, h]
    have hcs : clampScale q = max (-1) (min 1 q) * 32768 := by
      unfold clampScale; rw [if_pos h]
    rw [hstep, ← hcs, toInt16_some_inrange hlo hhi]
  · have hstep : pcmSample (some q) = toInt16 (some (max (-1) (min 1 q) * 32767)) := by
      simp [pcmSample, jsMax, jsMin, jsLt, jsMul, h]
    have hcs : clampScale q = max (-1) (min 1 q) * 32767 := by
      unfold clampScale; rw [if_neg h]
    rw [hstep, ← hcs, toInt16_some_inrange hlo hhi]

lemma pcmSample_none : pcmSample none = 0 := rfl

lemma pcmSample_close (q : ℚ) : |((pcmSample (some q) : ℤ) : ℚ) - clampScale q| ≤ 1 := by
  rw [pcmSample_some]
  exact truncToward0_close (clampScale q)

lemma pcmSample_range (x : JSNum) : -32768 ≤ pcmSample x ∧ pcmSample x ≤ 32767 := by
  match x with
  | none => exact ⟨by norm_num [pcmSample_none], by norm_num [pcmSample_none]⟩
  | some q =>
    rw [pcmSample_some]
    exact truncToward0_bounds (clampScale_lower q) (clampScale_upper q)

lemma getD_map {α β : Type} (f : α → β) (l : List α) (i : ℕ) (d : α) :
    (l.map f).getD i (f d) = f (l.getD i d) := by
  induction l generalizing i with
  | nil => simp [List.getD]
  | cons a t ih =>
    cases i with
    | zero => simp [List.getD]
    | succ j => simp [List.getD]

/-! ## Live transport session (`SafetySentinel`) -/

/-- The mutable fields of a `SafetySentinel` instance.  References that may
be null are `Option`; the `Bool` inside records the platform-level state of
the owned resource (microphone tracks live, processor connected to the
graph, audio context open). -/
structure SentinelState where
  isConnected : Bool
  mediaStream : Option Bool
  processor : Option Bool
  audioContext : Option Bool
  analyser : Option Bool
  hasVolumeCb : Bool
  deriving DecidableEq

/-- A freshly constructed sentinel: every resource reference is null and
`isConnected` is false. -/
def SentinelState.initial (hasVolumeCb : Bool) : SentinelState :=
  ⟨false, none, none, none, none, hasVolumeCb⟩

/-- `stop()` from `SafetySentinel`: clears the connected flag first, then,
for each non-null resource reference, performs the platform teardown call
(`track.stop()` on every track, `processor.disconnect()`,
`audioContext.close()`).  Each of those platform calls is modelled as
setting the resource's active flag to false; none of them raises to the
caller (stopping an ended track and disconnecting a disconnected node are
no-ops, and closing a closed context only rejects an unawaited promise).
The references themselves are not nulled out by the source. -/
def SentinelState.stop (s : SentinelState) : SentinelState :=
  { s with
    isConnected := false
    mediaStream := s.mediaStream.map (fun _ => false)
    processor := s.processor.map (fun _ => false)
    audioContext := s.audioContext.map (fun _ => false) }

/-- The `args` of a `triggerEmergency` function call.  `confidence` is the
optional numeric confidence; NaN is irrelevant here so plain `Option ℚ`. -/
structure FnArgs where
  reason : String
  emotion : String
  confidence : Option ℚ
  deriving DecidableEq

/-- One entry of `message.toolCall.functionCalls`. -/
structure FunctionCall where
  id : String
  name : String
  args : FnArgs
  deriving DecidableEq

/-- An inbound `LiveServerMessage`, reduced to the field `handleMessage`
inspects: the optional `toolCall` with its list of function calls. -/
structure LiveServerMessage where
  toolCall : Option (List FunctionCall)
  deriving DecidableEq

/-- The effects `handleMessage` issues, in program order:
`invokeTrigger` is the call `this.callbacks.onEmergencyTriggered(args.reason,
args.emotion)` (the controller registers the async `triggerAlert` there, so
this call schedules the alert pipeline and returns at once), and
`scheduleAck` is `sessionPromise.then(session => session.sendToolResponse
(...))` with the given id, name and result. -/
inductive SessionAction where
  | invokeTrigger (reason emotion : String)
  | scheduleAck (id name result : String)
  deriving DecidableEq

/-- `handleMessage` from `SafetySentinel`: for each function call in the
message's tool call whose name is `triggerEmergency`, invoke the trigger
callback, then schedule the acknowledgment.  The method reads nothing else
from `this` (in particular not `isConnected`). -/
def SentinelState.handleMessage (_s : SentinelState) (msg : LiveServerMessage) :
    List SessionAction :=
  match msg.toolCall with
  | none => []
  | some fcs =>
    fcs.flatMap fun fc =>
      if fc.name = "triggerEmergency" then
        [SessionAction.invokeTrigger fc.args.reason fc.args.emotion,
         SessionAction.scheduleAck fc.id fc.name "ALERTS_SENT"]
      else []

/-- The function calls of a message that name the distress tool. -/
def matchingCalls (msg : LiveServerMessage) : List FunctionCall :=
  match msg.toolCall with
  | none => []
  | some fcs => fcs.filter (fun fc => fc.name = "triggerEmergency")

/-- An acknowledgment sent back over the transport via `sendToolResponse`. -/
structure Ack where
  id : String
  name : String
  result : String
  deriving DecidableEq

/-- The acknowledgments contained in an action trace. -/
def acksOf (acts : List SessionAction) : List Ack :=
  acts.flatMap fun a =>
    match a with
    | SessionAction.scheduleAck id name result => [⟨id, name, result⟩]
    | _ => []

/-- The trigger-callback invocations contained in an action trace. -/
def triggersOf (acts : List SessionAction) : List (String × String) :=
  acts.flatMap fun a =>
    match a with
    | SessionAction.invokeTrigger r e => [(r, e)]
    | _ => []

/-! ## Arming/alert controller (`App.tsx`) -/

/-- The `status` state variable of `App`. -/
inductive Status where
  | IDLE
  | CONNECTING
  | ARMED
  | DANGER
  deriving DecidableEq

/-- The `contact` state variable. -/
structure EmergencyContact where
  name : String
  phone : String
  deriving DecidableEq

/-- The `errorState` state variable.  `shown` is the source's `show` field
(a reserved word here). -/
structure ErrorState where
  shown : Bool
  title : String
  message : String
  deriving DecidableEq

/-- One entry of the `logs` state variable.  The timestamp is an abstract
clock value. -/
structure AlertLog where
  timestamp : ℕ
  type : String
  emotion : String
  location : String
  imageUrl : String
  isSilent : Bool
  deriving DecidableEq

/-- The controller state: the `App` component's state variables plus the
refs it owns.  `cameraLive` records whether the camera stream assigned to
`videoRef.current.srcObject` still has live tracks; `wakeLock` whether
`wakeLockRef.current` holds an unreleased lock. -/
structure AppState where
  isArmed : Bool
  status : Status
  contact : EmergencyContact
  logs : List AlertLog
  volume : ℕ
  silentMode : Bool
  blackoutMode : Bool
  errorState : ErrorState
  wakeLock : Bool
  sentinel : Option SentinelState
  cameraLive : Bool
  deriving DecidableEq

/-- `handleError` from `App.tsx`: show the error record, force `IDLE`,
clear the armed flag and release the wake lock. -/
def handleError (st : AppState) (title message : String) : AppState :=
  { st with
    errorState := ⟨true, title, message⟩
    status := Status.IDLE
    isArmed := false
    wakeLock := false }

/-- A geolocation fix as delivered to the success callback. -/
structure GeoPos where
  lat : ℚ
  lng : ℚ
  deriving DecidableEq

/-- Rendering of one coordinate; stands in for the platform's
`Number.prototype.toFixed(5)`. -/
def toFixed5 (q : ℚ) : String := toString q

/-- The outcomes of the platform calls one `captureEvidence` run makes:
`geo` is the geolocation result (`none` covers rejection and the 5-second
timeout), `refsReady` whether both the video and canvas refs are non-null,
`ctx2d` whether `getContext` returned a context, and `draw` the outcome of
drawing the frame and serializing it (`none` covers any throw, which the
source catches). -/
structure EvidenceEnv where
  geo : Option GeoPos
  refsReady : Bool
  ctx2d : Bool
  draw : Option String
  deriving DecidableEq

/-- `captureEvidence` from `App.tsx`: best-effort location (sentinel
`"Unknown Location"` on any failure) and best-effort image (empty string on
any failure), each sub-capture independent of the other.  Total: every
fallible platform call sits inside a try/catch in the source. -/
def captureEvidence (env : EvidenceEnv) : String × String :=
  (match env.geo with
   | some pos => toFixed5 pos.lat ++ ", " ++ toFixed5 pos.lng
   | none => "Unknown Location",
   if env.refsReady then
     if env.ctx2d then
       match env.draw with
       | some url => url
       | none => ""
     else ""
   else "")

/-- `triggerAlert` from `App.tsx`: when not in silent mode, show `DANGER`
and clear the blackout overlay; run evidence capture; prepend one
`AlertLog` entry built from the invocation's reason and emotion, the
evidence, and the current silent flag.  `now` is the abstract clock read by
`new Date()`. -/
def triggerAlert (st : AppState) (now : ℕ) (env : EvidenceEnv)
    (reason emotion : String) : AppState :=
  let st1 := if st.silentMode then st
             else { st with status := Status.DANGER, blackoutMode := false }
  let ev := captureEvidence env
  { st1 with
    logs := ⟨now, reason, emotion, ev.1, ev.2, st1.silentMode⟩ :: st1.logs }

/-- A sequence of trigger-handler invocations, each with its clock value
and platform outcomes, applied in order. -/
def runTriggers (st : AppState)
    (invs : List (ℕ × EvidenceEnv × String × String)) : AppState :=
  invs.foldl (fun st i => triggerAlert st i.1 i.2.1 i.2.2.1 i.2.2.2) st

/-- Environment for executing the actions one inbound message schedules:
the clock and evidence outcomes seen by the alert pipeline, and
`pipelineThrows`, modelling a rejection inside the async `triggerAlert`
(its synchronous invocation still returns at once; the rejection aborts the
pipeline after the synchronous status update). -/
structure PipelineEnv where
  now : ℕ
  evidence : EvidenceEnv
  pipelineThrows : Bool
  deriving DecidableEq

/-- Execute one scheduled session action against the controller state,
collecting the acknowledgments actually handed to the transport. -/
def runAction (env : PipelineEnv) (p : AppState × List Ack)
    (a : SessionAction) : AppState × List Ack :=
  match a with
  | SessionAction.invokeTrigger r e =>
    (if env.pipelineThrows then
       (if p.1.silentMode then p.1
        else { p.1 with status := Status.DANGER, blackoutMode := false })
     else triggerAlert p.1 env.now env.evidence r e, p.2)
  | SessionAction.scheduleAck id name result => (p.1, p.2 ++ [⟨id, name, result⟩])

/-- Receipt of one inbound message: run `handleMessage` and execute the
actions it scheduled. -/
def processMessage (s : SentinelState) (st : AppState) (env : PipelineEnv)
    (msg : LiveServerMessage) : AppState × List Ack :=
  (s.handleMessage msg).foldl (runAction env) (st, [])

/-! ## Arming, disarming and the audio frame callback -/

/-- The `name` of a thrown platform `DOMException`, as the source branches
on it; `otherError` carries `error.message`, `nonError` is a thrown
non-`Error` value. -/
inductive DOMErr where
  | notAllowed
  | notFound
  | notReadable
  | otherError (message : String)
  | nonError
  deriving DecidableEq

/-- The camera message mapping in `toggleArm`'s catch block. -/
def cameraErrMsg (e : DOMErr) : String :=
  match e with
  | DOMErr.notAllowed =>
    "You have blocked camera access. Please go to your browser settings and allow camera access for this site to use the safety features."
  | DOMErr.notFound => "No camera found on this device."
  | DOMErr.notReadable => "Your camera is currently in use by another application."
  | _ => "We need camera access to capture evidence during an emergency."

/-- The microphone message mapping in `SafetySentinel.start`'s catch block. -/
def micErrMsg (e : DOMErr) : String :=
  match e with
  | DOMErr.notAllowed => "Microphone permission was denied."
  | DOMErr.notFound => "No microphone found."
  | DOMErr.notReadable => "Microphone is in use by another app."
  | DOMErr.otherError m => m
  | DOMErr.nonError => "Failed to access microphone."

/-- A capability-acquisition call issued during an arm attempt. -/
inductive CapCall where
  | cameraRequest
  | micRequest
  deriving DecidableEq

/-- Outcomes of the platform calls an arm attempt makes: the camera
`getUserMedia` in `toggleArm` and the microphone `getUserMedia` in
`SafetySentinel.start`. -/
structure ArmEnv where
  camera : Option DOMErr
  mic : Option DOMErr
  deriving DecidableEq

/-- The disarm branch of `toggleArm`: stop the sentinel if present, release
the wake lock, clear the armed flag, return to `IDLE`, reset the volume,
clear the blackout overlay.  Nothing touches the camera stream. -/
def disarm (st : AppState) : AppState :=
  { st with
    sentinel := st.sentinel.map SentinelState.stop
    wakeLock := false
    isArmed := false
    status := Status.IDLE
    volume := 0
    blackoutMode := false }

/-- The arm branch of `toggleArm`, with the body of
`SafetySentinel.start` inlined at its call site (`await
sentinelRef.current.start()`).  Returns the resulting state and the trace
of capability calls issued.  Key source facts reflected here: a camera
failure returns before any sentinel is built; a microphone failure inside
`start` is caught there and reported through `callbacks.onError` (which is
`handleError`), after which `start` returns normally and `toggleArm` still
executes `setIsArmed(true)`. -/
def armAttempt (st : AppState) (env : ArmEnv) : AppState × List CapCall :=
  if st.contact.name = "" ∨ st.contact.phone = "" then
    (handleError st "Setup Required"
      "Please enter an emergency contact name and phone number.", [])
  else
    let st1 : AppState := { st with status := Status.CONNECTING }
    match env.camera with
    | some e =>
      (handleError st1 "Camera Permission Failed" (cameraErrMsg e),
       [CapCall.cameraRequest])
    | none =>
      let st2 : AppState := { st1 with cameraLive := true }
      match env.mic with
      | some e =>
        let st3 := handleError st2 "Sentinel System Error" (micErrMsg e)
        ({ st3 with
            sentinel := some (SentinelState.initial true)
            isArmed := true },
         [CapCall.cameraRequest, CapCall.micRequest])
      | none =>
        ({ st2 with
            sentinel := some { SentinelState.initial true with
              mediaStream := some true
              processor := some true
              audioContext := some true
              analyser := some true }
            isArmed := true },
         [CapCall.cameraRequest, CapCall.micRequest])

/-- `toggleArm` from `App.tsx`. -/
def toggleArm (st : AppState) (env : ArmEnv) : AppState × List CapCall :=
  if st.isArmed then (disarm st, []) else armAttempt st env

/-- The `onopen` transport callback composed with the controller's
`onConnect`: the sentinel flips `isConnected` before invoking the
callback, which shows `ARMED` and requests the wake lock
(`wakeLockAvail` is whether the platform grants it; a denial is caught and
only logged). -/
def onConnect (st : AppState) (wakeLockAvail : Bool) : AppState :=
  { st with
    sentinel := st.sentinel.map (fun s => { s with isConnected := true })
    status := Status.ARMED
    wakeLock := wakeLockAvail }

/-- The controller's `onError` callback: a session error surfaces through
`handleError`. -/
def onSessionError (st : AppState) (err : String) : AppState :=
  handleError st "Sentinel System Error" err

/-- The effects one `onaudioprocess` callback issues. -/
inductive AudioAction where
  | sendRealtime (pcm : List ℤ)
  | volumeChange (v : ℚ)
  deriving DecidableEq

/-- The data one audio frame presents to the callback: the float samples of
the input buffer and the byte frequency-bin magnitudes the analyser would
report. -/
structure AudioFrameEnv where
  inputData : List JSNum
  freqData : List ℕ
  deriving DecidableEq

/-- The arithmetic mean `sum / dataArray.length` computed for the volume
callback. -/
def volumeAverage (freqData : List ℕ) : ℚ :=
  (freqData.sum : ℚ) / (freqData.length : ℚ)

/-- The `onaudioprocess` handler installed by `SafetySentinel.start`: its
first statement is `if (!this.isConnected) return;`, so a disconnected
session emits nothing at all; otherwise it encodes and sends the frame and
then, if the analyser and the volume callback exist, reports the average
volume. -/
def onAudioProcess (s : SentinelState) (env : AudioFrameEnv) : List AudioAction :=
  if !s.isConnected then []
  else
    AudioAction.sendRealtime (floatTo16BitPCM env.inputData) ::
    (if s.analyser.isSome ∧ s.hasVolumeCb then
       [AudioAction.volumeChange (volumeAverage env.freqData)]
     else [])

/-- The log entry `triggerAlert` constructs for one invocation. -/
def logEntryOf (silent : Bool) (now : ℕ) (env : EvidenceEnv) (reason emotion : String) :
    AlertLog :=
  ⟨now, reason, emotion, (captureEvidence env).1, (captureEvidence env).2, silent⟩

/-- `msg` with every function call's confidence replaced by `c`. -/
def setConfidences (c : Option ℚ) (msg : LiveServerMessage) : LiveServerMessage :=
  ⟨msg.toolCall.map (List.map fun fc =>
    { fc with args := { fc.args with confidence := c } })⟩

/-! ## Helper lemmas -/

lemma foldl_runAction_acks (env : PipelineEnv) (acts : List SessionAction) :
    ∀ st acks, (acts.foldl (runAction env) (st, acks)).2 = acks ++ acksOf acts := by
  induction acts with
  | nil => intro st acks; simp [acksOf]
  | cons a t ih =>
    intro st acks
    cases a with
    | invokeTrigger r e =>
      simp only [List.foldl_cons, runAction]
      rw [ih]
      simp [acksOf]
    | scheduleAck id name result =>
      simp only [List.foldl_cons, runAction]
      rw [ih]
      simp [acksOf]

lemma acksOf_handleMessage (s : SentinelState) (msg : LiveServerMessage) :
    acksOf (s.handleMessage msg) =
      (matchingCalls msg).map (fun fc => Ack.mk fc.id fc.name "ALERTS_SENT") := by
  cases msg with
  | mk tc =>
    cases tc with
    | none => rfl
    | some fcs =>
      induction fcs with
      | nil => rfl
      | cons fc t ih =>
        by_cases h : fc.name = "triggerEmergency" <;>
          simp [SentinelState.handleMessage, matchingCalls, acksOf, h] at ih ⊢ <;>
          exact ih

lemma triggersOf_handleMessage (s : SentinelState) (msg : LiveServerMessage) :
    triggersOf (s.handleMessage msg) =
      (matchingCalls msg).map (fun fc => (fc.args.reason, fc.args.emotion)) := by
  cases msg with
  | mk tc =>
    cases tc with
    | none => rfl
    | some fcs =>
      induction fcs with
      | nil => rfl
      | cons fc t ih =>
        by_cases h : fc.name = "triggerEmergency" <;>
          simp [SentinelState.handleMessage, matchingCalls, triggersOf, h] at ih ⊢ <;>
          exact ih

lemma handleMessage_setConfidences (s : SentinelState) (c : Option ℚ)
    (msg : LiveServerMessage) :
    s.handleMessage (setConfidences c msg) = s.handleMessage msg := by
  cases msg with
  | mk tc =>
    cases tc with
    | none => rfl
    | some fcs =>
      induction fcs with
      | nil => rfl
      | cons fc t ih =>
        by_cases h : fc.name = "triggerEmergency" <;>
          simp [SentinelState.handleMessage, setConfidences, h] at ih ⊢ <;>
          exact ih

lemma triggerAlert_silent (st : AppState) (now : ℕ) (env : EvidenceEnv)
    (r e : String) : (triggerAlert st now env r e).silentMode = st.silentMode := by
  cases hs : st.silentMode <;> simp [triggerAlert, hs]

lemma triggerAlert_logs (st : AppState) (now : ℕ) (env : EvidenceEnv)
    (r e : String) :
    (triggerAlert st now env r e).logs =
      logEntryOf st.silentMode now env r e :: st.logs := by
  cases hs : st.silentMode <;> simp [triggerAlert, logEntryOf, hs]

lemma runTriggers_logs (invs : List (ℕ × EvidenceEnv × String × String)) :
    ∀ st : AppState, (runTriggers st invs).logs =
      (invs.map (fun i => logEntryOf st.silentMode i.1 i.2.1 i.2.2.1 i.2.2.2)).reverse
        ++ st.logs := by
  induction invs with
  | nil => intro st; simp [runTriggers]
  | cons i t ih =>
    intro st
    simp only [runTriggers, List.foldl_cons] at ih ⊢
    rw [ih, triggerAlert_silent, triggerAlert_logs]
    simp

lemma foldl_runAction_state (env : PipelineEnv) (h : env.pipelineThrows = false)
    (acts : List SessionAction) :
    ∀ st acks, (acts.foldl (runAction env) (st, acks)).1 =
      runTriggers st ((triggersOf acts).map
        (fun p => (env.now, env.evidence, p.1, p.2))) := by
  induction acts with
  | nil => intro st acks; simp [triggersOf, runTriggers]
  | cons a t ih =>
    intro st acks
    cases a with
    | invokeTrigger r e =>
      simp only [List.foldl_cons, runAction, h, Bool.false_eq_true, if_false]
      rw [ih]
      simp [triggersOf, runTriggers]
    | scheduleAck id name result =>
      simp only [List.foldl_cons, runAction]
      rw [ih]
      simp [triggersOf]

lemma stop_stop (s : SentinelState) : s.stop.stop = s.stop := by
  cases s with
  | mk c m p a an v =>
    simp [SentinelState.stop, Option.map_map, Function.comp]

lemma disarm_disarm (st : AppState) : disarm (disarm st) = disarm st := by
  cases st with
  | mk ia s c l v sm b e w sn cl =>
    simp only [disarm]
    simp only [AppState.mk.injEq, and_true, true_and]
    cases sn with
    | none => simp
    | some sent => simp [stop_stop]

lemma volumeAverage_bounds {l : List ℕ} (hne : 0 < l.length)
    (hb : ∀ x ∈ l, x ≤ 255) :
    0 ≤ volumeAverage l ∧ volumeAverage l ≤ 255 := by
  have hlen : (0 : ℚ) < (l.length : ℚ) := by exact_mod_cast hne
  constructor
  · exact div_nonneg (by positivity) (le_of_lt hlen)
  · rw [volumeAverage, div_le_iff₀ hlen]
    have hsum : l.sum ≤ l.length * 255 := by
      calc l.sum ≤ l.length • 255 := List.sum_le_card_nsmul l 255 hb
        _ = l.length * 255 := by simp [smul_eq_mul]
    calc (l.sum : ℚ) ≤ ((l.length * 255 : ℕ) : ℚ) := by exact_mod_cast hsum
      _ = 255 * (l.length : ℚ) := by push_cast; ring

/-! ## Claims -/

/-- C1: For every inbound message carrying `triggerEmergency` tool
invocations, the session sends exactly one acknowledgment
`(id, name, result ALERTS_SENT)` per invocation, in receipt order — and
the acknowledgment list is a function of the message alone: it is the same
for every controller state and every pipeline environment, in particular
when the async trigger callback rejects (`pipelineThrows`) and whatever
the evidence-capture outcomes are, so the acknowledgment neither waits on
nor can be blocked by the local alert pipeline. -/
theorem ack_exactly_once (s : SentinelState) (st : AppState) (env : PipelineEnv)
    (msg : LiveServerMessage) :
    (processMessage s st env msg).2 =
      (matchingCalls msg).map (fun fc => Ack.mk fc.id fc.name "ALERTS_SENT") := by
  unfold processMessage
  rw [foldl_runAction_acks, acksOf_handleMessage]
  simp

/-- C5: `captureEvidence` is total (never raises); a failed or timed-out
geolocation yields the sentinel `"Unknown Location"`; a missing ref,
missing 2d context or failed draw yields the empty image; and each
sub-capture's result depends only on its own platform outcomes, so a
failure of one never invalidates the other. -/
theorem capture_evidence_best_effort (g g' : Option GeoPos) (r c : Bool)
    (d : Option String) (r' c' : Bool) (d' : Option String) :
    (captureEvidence ⟨none, r, c, d⟩).1 = "Unknown Location" ∧
    (captureEvidence ⟨g, false, c, d⟩).2 = "" ∧
    (captureEvidence ⟨g, r, false, d⟩).2 = "" ∧
    (captureEvidence ⟨g, r, c, none⟩).2 = "" ∧
    (captureEvidence ⟨g, r, c, d⟩).1 = (captureEvidence ⟨g, r', c', d'⟩).1 ∧
    (captureEvidence ⟨g, r, c, d⟩).2 = (captureEvidence ⟨g', r, c, d⟩).2 := by
  refine ⟨rfl, rfl, ?_, ?_, ?_, ?_⟩
  · cases r <;> rfl
  · cases r <;> [rfl; (cases c <;> rfl)]
  · rfl
  · rfl

/-- C6: the PCM encoder is a pure total function producing exactly one
16-bit sample per input sample; each output slot is the per-sample
transform of the corresponding input; every non-NaN sample lands within
one quantization step of the spec's clamped, asymmetrically scaled value;
a NaN sample encodes to 0; and every output fits the signed 16-bit
range. -/
theorem pcm_encoder_contract (input : List JSNum) (i : ℕ) :
    (floatTo16BitPCM input).length = input.length ∧
    (floatTo16BitPCM input).getD i 0 = pcmSample (input.getD i none) ∧
    (∀ q : ℚ, |((pcmSample (some q) : ℤ) : ℚ) - clampScale q| ≤ 1) ∧
    pcmSample none = 0 ∧
    (∀ x : JSNum, -32768 ≤ pcmSample x ∧ pcmSample x ≤ 32767) := by
  refine ⟨by simp [floatTo16BitPCM], ?_, pcmSample_close, pcmSample_none, pcmSample_range⟩
  have h := getD_map pcmSample input i none
  rw [pcmSample_none] at h
  exact h

/-- C8: `stop()` is idempotent and safe at every state, including the
never-started one: it always clears the connected flag, a second run is a
no-op on the already-released resources, and on a freshly constructed
sentinel it changes nothing.  Disarm (the disarm branch of `toggleArm`,
which runs `stop()`) is likewise idempotent and always lands on `IDLE`
with the armed flag clear. -/
theorem stop_disarm_idempotent (s : SentinelState) (st : AppState) (b : Bool) :
    s.stop.stop = s.stop ∧
    s.stop.isConnected = false ∧
    (SentinelState.initial b).stop = SentinelState.initial b ∧
    disarm (disarm st) = disarm st ∧
    (disarm st).status = Status.IDLE ∧
    (disarm st).isArmed = false :=
  ⟨stop_stop s, rfl, rfl, disarm_disarm st, rfl, rfl⟩

/-- C2: the session performs no confidence gating (its handling of a
message is unchanged under any rewrite of the confidence fields, and every
`triggerEmergency` call in a message produces a trigger-callback
invocation carrying exactly its reason and emotion); `triggerAlert` with
silent mode off shows `DANGER` and clears the blackout flag; in all cases
it prepends exactly one log entry carrying the invocation's reason,
emotion and the current silent flag; and N invocations grow the log by
exactly N entries, most recent first, over the untouched old log. -/
theorem trigger_pipeline_pass_through (s : SentinelState) (msg : LiveServerMessage)
    (c : Option ℚ) (st : AppState) (now : ℕ) (env : EvidenceEnv) (r e : String)
    (invs : List (ℕ × EvidenceEnv × String × String)) :
    s.handleMessage (setConfidences c msg) = s.handleMessage msg ∧
    triggersOf (s.handleMessage msg) =
      (matchingCalls msg).map (fun fc => (fc.args.reason, fc.args.emotion)) ∧
    (st.silentMode = false →
      (triggerAlert st now env r e).status = Status.DANGER ∧
      (triggerAlert st now env r e).blackoutMode = false) ∧
    (triggerAlert st now env r e).logs =
      logEntryOf st.silentMode now env r e :: st.logs ∧
    (logEntryOf st.silentMode now env r e).type = r ∧
    (logEntryOf st.silentMode now env r e).emotion = e ∧
    (logEntryOf st.silentMode now env r e).isSilent = st.silentMode ∧
    (runTriggers st invs).logs =
      (invs.map (fun i => logEntryOf st.silentMode i.1 i.2.1 i.2.2.1 i.2.2.2)).reverse
        ++ st.logs ∧
    (runTriggers st invs).logs.length = st.logs.length + invs.length := by
  refine ⟨handleMessage_setConfidences s c msg, triggersOf_handleMessage s msg,
    ?_, triggerAlert_logs st now env r e, rfl, rfl, rfl,
    runTriggers_logs invs st, ?_⟩
  · intro hs
    constructor <;> simp [triggerAlert, hs]
  · rw [runTriggers_logs invs st]
    simp [Nat.add_comm]

/-- C2 witness: a concrete loud-mode trigger lands in `DANGER`. -/
theorem trigger_pipeline_pass_through_witness :
    (triggerAlert
      ⟨false, Status.ARMED, ⟨"Mom", "+15550123"⟩, [], 0, false, false,
        ⟨false, "", ""⟩, true, none, true⟩
      0 ⟨none, false, false, none⟩ "chaotic scream" "MORTAL_FEAR").status =
      Status.DANGER := by
  have h := trigger_pipeline_pass_through (SentinelState.initial true) ⟨none⟩ none
    ⟨false, Status.ARMED, ⟨"Mom", "+15550123"⟩, [], 0, false, false,
      ⟨false, "", ""⟩, true, none, true⟩
    0 ⟨none, false, false, none⟩ "chaotic scream" "MORTAL_FEAR" []
  exact (h.2.2.1 rfl).1

/-- C3 counterexample: arm with a valid contact, camera granted, microphone
denied.  `start()` catches the failure and reports it through the error
callback (`handleError` runs: error shown, `IDLE`, armed flag cleared) —
but `toggleArm` then resumes after `await start()` and still executes
`setIsArmed(true)`, so the very arm attempt that surfaced the error undoes
the disarmed rest state: the final armed flag is `true`. -/
theorem error_rest_state_cex :
    (armAttempt
      ⟨false, Status.IDLE, ⟨"Mom", "+15550123"⟩, [], 0, false, false,
        ⟨false, "", ""⟩, false, none, false⟩
      ⟨none, some DOMErr.notAllowed⟩).1.errorState.shown = true ∧
    (armAttempt
      ⟨false, Status.IDLE, ⟨"Mom", "+15550123"⟩, [], 0, false, false,
        ⟨false, "", ""⟩, false, none, false⟩
      ⟨none, some DOMErr.notAllowed⟩).1.isArmed = true := by
  constructor <;> decide

/-- C3 amended: `handleError` itself always establishes the disarmed rest
state (error shown, `IDLE`, armed flag false, wake lock released), and the
contact-validation and camera-failure paths return immediately after it,
so their rest state survives the attempt.  But when the error is a session
error reported through the error callback during `start()` (e.g. a
microphone failure), the remainder of the arm attempt still runs
`setIsArmed(true)`: the error record, `IDLE` status and wake-lock release
persist, while the armed flag ends up `true`. -/
theorem error_rest_state_amended (st : AppState) (env : ArmEnv) (t m : String)
    (e : DOMErr) :
    ((handleError st t m).errorState.shown = true ∧
     (handleError st t m).status = Status.IDLE ∧
     (handleError st t m).isArmed = false ∧
     (handleError st t m).wakeLock = false) ∧
    (st.contact.name = "" ∨ st.contact.phone = "" →
      (armAttempt st env).1.errorState.shown = true ∧
      (armAttempt st env).1.status = Status.IDLE ∧
      (armAttempt st env).1.isArmed = false ∧
      (armAttempt st env).1.wakeLock = false) ∧
    (env.camera = some e →
      (armAttempt st env).1.errorState.shown = true ∧
      (armAttempt st env).1.status = Status.IDLE ∧
      (armAttempt st env).1.isArmed = false ∧
      (armAttempt st env).1.wakeLock = false) ∧
    (st.contact.name ≠ "" → st.contact.phone ≠ "" → env.camera = none →
      env.mic = some e →
      (armAttempt st env).1.errorState.shown = true ∧
      (armAttempt st env).1.status = Status.IDLE ∧
      (armAttempt st env).1.wakeLock = false ∧
      (armAttempt st env).1.isArmed = true) := by
  refine ⟨⟨rfl, rfl, rfl, rfl⟩, ?_, ?_, ?_⟩
  · intro h
    simp [armAttempt, h, handleError]
  · intro hc
    by_cases h : st.contact.name = "" ∨ st.contact.phone = ""
    · simp [armAttempt, h, handleError]
    · simp [armAttempt, h, hc, handleError]
  · intro h1 h2 hc hm
    have h : ¬(st.contact.name = "" ∨ st.contact.phone = "") := by
      intro h
      cases h with
      | inl h => exact h1 h
      | inr h => exact h2 h
    simp [armAttempt, h, hc, hm, handleError]

/-- C3 witness: the camera-failure path of the amended claim at a concrete
input. -/
theorem error_rest_state_amended_witness :
    (armAttempt
      ⟨false, Status.IDLE, ⟨"Mom", "+15550123"⟩, [], 0, false, false,
        ⟨false, "", ""⟩, false, none, false⟩
      ⟨some DOMErr.notFound, none⟩).1.status = Status.IDLE := by
  have h := error_rest_state_amended
    ⟨false, Status.IDLE, ⟨"Mom", "+15550123"⟩, [], 0, false, false,
      ⟨false, "", ""⟩, false, none, false⟩
    ⟨some DOMErr.notFound, none⟩ "t" "m" DOMErr.notFound
  exact (h.2.2.1 rfl).2.1

/-- C4 counterexample: arm successfully (camera and microphone granted),
connect, then disarm.  Disarm stops the sentinel and releases the wake
lock, but nothing ever stops the camera stream attached to the video ref:
after the completed disarm the camera stream is still live, so a resource
guard is still held. -/
theorem camera_held_after_disarm_cex :
    (disarm (onConnect
      (armAttempt
        ⟨false, Status.IDLE, ⟨"Mom", "+15550123"⟩, [], 0, false, false,
          ⟨false, "", ""⟩, false, none, false⟩
        ⟨none, none⟩).1 true)).cameraLive = true := by
  decide

/-- C4 amended: a completed disarm releases the wake lock and tears the
session down — the sentinel is stopped, so its connected flag is false and
its microphone stream, processing node and audio context are no longer
active — but the camera stream is not released: disarm leaves it exactly
as it was. -/
theorem disarm_releases_amended (st : AppState) (s : SentinelState) :
    (disarm st).wakeLock = false ∧
    (disarm st).sentinel = st.sentinel.map SentinelState.stop ∧
    (disarm st).cameraLive = st.cameraLive ∧
    s.stop.isConnected = false ∧
    s.stop.mediaStream ≠ some true ∧
    s.stop.processor ≠ some true ∧
    s.stop.audioContext ≠ some true := by
  refine ⟨rfl, rfl, rfl, rfl, ?_, ?_, ?_⟩
  · cases hm : s.mediaStream <;> simp [SentinelState.stop, hm]
  · cases hp : s.processor <;> simp [SentinelState.stop, hp]
  · cases ha : s.audioContext <;> simp [SentinelState.stop, ha]

/-- C7: with a non-empty contact, a camera-acquisition failure aborts the
arm attempt: the state returns to `IDLE`, the error record carries the
camera title and the message pre-mapped from the failure kind — with
pairwise distinct messages for permission denied, no device and device
busy — and no microphone request appears in the attempt's capability
trace. -/
theorem camera_failure_aborts (st : AppState) (env : ArmEnv) (e : DOMErr)
    (h1 : st.contact.name ≠ "") (h2 : st.contact.phone ≠ "")
    (hc : env.camera = some e) :
    (armAttempt st env).1.status = Status.IDLE ∧
    (armAttempt st env).1.errorState.shown = true ∧
    (armAttempt st env).1.errorState.title = "Camera Permission Failed" ∧
    (armAttempt st env).1.errorState.message = cameraErrMsg e ∧
    CapCall.micRequest ∉ (armAttempt st env).2 ∧
    cameraErrMsg DOMErr.notAllowed ≠ cameraErrMsg DOMErr.notFound ∧
    cameraErrMsg DOMErr.notAllowed ≠ cameraErrMsg DOMErr.notReadable ∧
    cameraErrMsg DOMErr.notFound ≠ cameraErrMsg DOMErr.notReadable := by
  have h : ¬(st.contact.name = "" ∨ st.contact.phone = "") := by
    intro h
    cases h with
    | inl h => exact h1 h
    | inr h => exact h2 h
  refine ⟨?_, ?_, ?_, ?_, ?_, by decide, by decide, by decide⟩ <;>
    simp [armAttempt, h, hc, handleError]

/-- C7 witness: a concrete permission-denied camera failure. -/
theorem camera_failure_aborts_witness :
    (armAttempt
      ⟨false, Status.IDLE, ⟨"Mom", "+15550123"⟩, [], 0, false, false,
        ⟨false, "", ""⟩, false, none, false⟩
      ⟨some DOMErr.notAllowed, none⟩).1.errorState.message =
      cameraErrMsg DOMErr.notAllowed := by
  have h := camera_failure_aborts
    ⟨false, Status.IDLE, ⟨"Mom", "+15550123"⟩, [], 0, false, false,
      ⟨false, "", ""⟩, false, none, false⟩
    ⟨some DOMErr.notAllowed, none⟩ DOMErr.notAllowed
    (by decide) (by decide) rfl
  exact h.2.2.2.1

/-- C9 counterexample: a frame callback on a session that is not connected
— analyser present, volume callback registered, non-empty frequency data —
emits nothing at all: the first statement of `onaudioprocess` returns
before the volume average is computed, so no volume sample is forwarded
while the session is not Connected. -/
theorem volume_not_forwarded_cex :
    onAudioProcess ⟨false, some true, some true, some true, some true, true⟩
      ⟨[], [10, 20]⟩ = [] := rfl

/-- C9 amended: the volume sample is computed and forwarded only while the
session is Connected (and the analyser and volume callback exist); it then
equals the arithmetic mean of the frequency-bin bytes, which lies in
`[0, 255]`; while not Connected the frame callback emits nothing. -/
theorem volume_meter_amended (s : SentinelState) (env : AudioFrameEnv)
    (hconn : s.isConnected = true) (han : s.analyser.isSome)
    (hcb : s.hasVolumeCb = true) (hne : 0 < env.freqData.length)
    (hb : ∀ x ∈ env.freqData, x ≤ 255) :
    onAudioProcess s env =
      [AudioAction.sendRealtime (floatTo16BitPCM env.inputData),
       AudioAction.volumeChange (volumeAverage env.freqData)] ∧
    0 ≤ volumeAverage env.freqData ∧
    volumeAverage env.freqData ≤ 255 ∧
    (∀ (s' : SentinelState) (env' : AudioFrameEnv),
      s'.isConnected = false → onAudioProcess s' env' = []) := by
  refine ⟨?_, (volumeAverage_bounds hne hb).1, (volumeAverage_bounds hne hb).2, ?_⟩
  · simp [onAudioProcess, hconn, han, hcb]
  · intro s' env' h
    simp [onAudioProcess, h]

/-- C9 witness: a connected session with one full-scale bin forwards the
frame and its volume sample. -/
theorem volume_meter_amended_witness :
    onAudioProcess ⟨true, some true, some true, some true, some true, true⟩
      ⟨[], [255]⟩ =
      [AudioAction.sendRealtime (floatTo16BitPCM []),
       AudioAction.volumeChange (volumeAverage [255])] := by
  have h := volume_meter_amended
    ⟨true, some true, some true, some true, some true, true⟩ ⟨[], [255]⟩
    rfl rfl rfl (by decide) (by decide)
  exact h.1

/-- C10: `handleMessage` never consults the connection flag — its result is
unchanged under any rewrite of `isConnected` and under `stop()` — and a
`triggerEmergency` message processed on a stopped sentinel still runs the
full alert pipeline (one log entry per invocation, prepended over the old
log) and still schedules the canonical acknowledgment for each
invocation. -/
theorem handle_message_ignores_connection (s : SentinelState) (b : Bool)
    (st : AppState) (env : PipelineEnv) (msg : LiveServerMessage)
    (hthrow : env.pipelineThrows = false) :
    SentinelState.handleMessage { s with isConnected := b } msg =
      s.handleMessage msg ∧
    s.stop.handleMessage msg = s.handleMessage msg ∧
    (processMessage s.stop st env msg).1.logs =
      ((matchingCalls msg).map (fun fc =>
        logEntryOf st.silentMode env.now env.evidence fc.args.reason
          fc.args.emotion)).reverse ++ st.logs ∧
    (processMessage s.stop st env msg).2 =
      (matchingCalls msg).map (fun fc => Ack.mk fc.id fc.name "ALERTS_SENT") := by
  refine ⟨rfl, rfl, ?_, ?_⟩
  · unfold processMessage
    rw [foldl_runAction_state env hthrow, triggersOf_handleMessage,
      runTriggers_logs]
    simp [List.map_map, Function.comp]
  · unfold processMessage
    rw [foldl_runAction_acks, acksOf_handleMessage]
    simp

/-- C10 witness: one distress invocation processed on a stopped sentinel
still yields its acknowledgment. -/
theorem handle_message_ignores_connection_witness :
    (processMessage
      (SentinelState.stop ⟨true, some true, some true, some true, some true, true⟩)
      ⟨false, Status.ARMED, ⟨"Mom", "+15550123"⟩, [], 0, false, false,
        ⟨false, "", ""⟩, true, none, true⟩
      ⟨7, ⟨none, false, false, none⟩, false⟩
      ⟨some [⟨"id1", "triggerEmergency", ⟨"scream", "MORTAL_FEAR", none⟩⟩]⟩).2 =
      [⟨"id1", "triggerEmergency", "ALERTS_SENT"⟩] := by
  have h := handle_message_ignores_connection
    ⟨true, some true, some true, some true, some true, true⟩ false
    ⟨false, Status.ARMED, ⟨"Mom", "+15550123"⟩, [], 0, false, false,
      ⟨false, "", ""⟩, true, none, true⟩
    ⟨7, ⟨none, false, false, none⟩, false⟩
    ⟨some [⟨"id1", "triggerEmergency", ⟨"scream", "MORTAL_FEAR", none⟩⟩]⟩ rfl
  rw [h.2.2.2]
  decide

end SheSafe
